import Mathlib

/-!
# GreenWatch AI — verification of the core analysis pipeline

Shallow embedding of the backend modules of the greenwashing-claim
detector (`nlp_engine.py`, `cert_matcher.py`, `risk_scorer.py`,
`predictive_engine.py`) and proofs of the specified properties.

Modelling conventions:
* Python strings are Lean `String`s; `str.lower()` is char-wise
  `Char.toLower` (`lowerStr`).
* Dates are integer day counts: a registry record's `expiry` field and
  `today` are `Int`s, so Python's `expiry_date < today` and
  `(expiry_date - today).days` become integer comparison and subtraction.
* Python `round` (banker's rounding, round-half-to-even) is `pyRound`
  on `ℚ`; float arithmetic is modelled exactly on `ℚ`.
* `dict`s keyed by strings whose insertion order matters are association
  lists `List (String × _)`.
* The static JSON data tables (certificate registry, greenwashing keyword
  taxonomy, SDG-target table) are provisioning inputs loaded at startup
  and are not part of the source tree; functions reading them take them
  as an explicit parameter of the shape the code expects.
* The `CERT_GUIDANCE` table's payloads (urls, cost tiers, step lists) are
  never inspected by the code paths under verification — only whether a
  cert type HAS a guidance entry, and the extra `"action"` key the
  matcher splices in.  The remediation value is therefore modelled as a
  `Remediation` record carrying exactly that information, and the table
  by its key set `CERT_GUIDANCE_KEYS` (the seven keys of the source dict).
-/

/-- Char-wise lowercase of a string, modelling Python `str.lower()`. -/
def lowerStr (s : String) : String := String.mk (s.toList.map Char.toLower)

/-- Lowercase of a character list. -/
def lowerL (cs : List Char) : List Char := cs.map Char.toLower

/-- Python `round` on a rational: round half to even (banker's rounding). -/
def pyRound (q : ℚ) : ℤ :=
  if q - (⌊q⌋ : ℚ) < 1/2 then ⌊q⌋
  else if 1/2 < q - (⌊q⌋ : ℚ) then ⌊q⌋ + 1
  else if ⌊q⌋ % 2 = 0 then ⌊q⌋ else ⌊q⌋ + 1

/-- Join a list of strings with `", "`, modelling `", ".join(...)`. -/
def joinComma : List String → String
  | [] => ""
  | [s] => s
  | s :: t => s ++ ", " ++ joinComma t

/-! ## cert_matcher.py -/

/-- A certificate registry entry (one record of `cert_registry.json`):
`{company, cert_type, expiry, applicable_categories, certificate_number,
issuing_body}`. -/
structure CertRecord where
  company : String
  cert_type : String
  expiry : Int
  applicable_categories : List String
  certificate_number : String
  issuing_body : String
deriving Repr, DecidableEq

/-- The keys of the static `CERT_GUIDANCE` dict in `cert_matcher.py`. -/
def CERT_GUIDANCE_KEYS : List String :=
  ["FSC", "PEFC", "Rainforest Alliance", "ISO 14001", "CITES", "TNFD", "Carbon Trust"]

/-- The remediation value attached to a verification result:
`CERT_GUIDANCE.get(cert_type, {})`, possibly extended with an `"action"`
key.  `has_guidance = false` together with `action = none` is the empty
dict `{}`. -/
structure Remediation where
  has_guidance : Bool
  action : Option String
deriving Repr, DecidableEq

/-- `CERT_GUIDANCE.get(cert_type, {})` as a `Remediation` (no action key). -/
def guidanceFor (cert_type : String) : Remediation :=
  { has_guidance := CERT_GUIDANCE_KEYS.contains cert_type, action := none }

/-- Result of `_verify_single_cert` (the keys the pipeline reads).
`expiry_warning` is `none` except possibly on the VERIFIED branch. -/
structure CertResult where
  cert : String
  status : String
  severity : String
  reason : String
  remediation : Remediation
  expiry_warning : Option String
  registry_checked : Bool
deriving Repr, DecidableEq

/-- The registry records matching company and cert type case-insensitively
(the `matches` list comprehension in `_verify_single_cert`). -/
def registryMatches (registry : List CertRecord) (company cert_type : String) :
    List CertRecord :=
  registry.filter (fun r =>
    lowerStr r.company == lowerStr company && lowerStr r.cert_type == lowerStr cert_type)

/-- Category-in-scope test of `_verify_single_cert`:
`category.lower() in [c.lower() for c in record["applicable_categories"]]`. -/
def catInScope (record : CertRecord) (category : String) : Bool :=
  (record.applicable_categories.map lowerStr).contains (lowerStr category)

/-- `_verify_single_cert(company, cert_type, category)` from
`cert_matcher.py`, with the registry and today's date explicit.  The
`reason` strings that interpolate a formatted date are abbreviated (dates
are integer day counts here); no verified property inspects `reason`. -/
def verify_single_cert (registry : List CertRecord) (today : Int)
    (company cert_type category : String) : CertResult :=
  match registryMatches registry company cert_type with
  | [] =>
      { cert := cert_type
        status := "NOT_FOUND"
        severity := "high"
        reason := "No " ++ cert_type ++ " certificate found in registry for " ++ company
        remediation := guidanceFor cert_type
        expiry_warning := none
        registry_checked := true }
  | record :: _ =>
      let days_until_expiry : Int := record.expiry - today
      if record.expiry < today then
        { cert := cert_type
          status := "EXPIRED"
          severity := "high"
          reason := "Certificate expired (" ++ toString (-days_until_expiry) ++ " days ago)"
          remediation := { has_guidance := (guidanceFor cert_type).has_guidance
                           action := some "Renew your existing certificate through your certifying body" }
          expiry_warning := none
          registry_checked := true }
      else if !catInScope record category then
        { cert := cert_type
          status := "SCOPE_MISMATCH"
          severity := "medium"
          reason := "Certificate covers " ++ joinComma record.applicable_categories
                      ++ " — does not extend to '" ++ category ++ "'"
          remediation := { has_guidance := (guidanceFor cert_type).has_guidance
                           action := some ("Contact " ++ record.issuing_body
                             ++ " to extend scope to cover " ++ category ++ " products") }
          expiry_warning := none
          registry_checked := true }
      else
        { cert := cert_type
          status := "VERIFIED"
          severity := "none"
          reason := "Valid certificate"
          remediation := guidanceFor cert_type
          expiry_warning :=
            if 0 < days_until_expiry ∧ days_until_expiry < 90 then
              some ("Certificate expires in " ++ toString days_until_expiry
                      ++ " days — plan renewal soon")
            else none
          registry_checked := true }

/-- One entry of the `missing_recommended` list. -/
structure MissingCert where
  cert : String
  reason : String
  guidance : Remediation
deriving Repr, DecidableEq

/-- The static category → recommended-certificates table inside
`_identify_missing_certs`. -/
def CATEGORY_RECOMMENDATIONS : List (String × List String) :=
  [("timber", ["FSC", "PEFC", "Carbon Trust"]),
   ("paper", ["FSC", "PEFC"]),
   ("furniture", ["FSC", "ISO 14001"]),
   ("textiles", ["PEFC", "ISO 14001"]),
   ("food", ["Rainforest Alliance"]),
   ("agriculture", ["Rainforest Alliance", "ISO 14001"]),
   ("cosmetics", ["ISO 14001"]),
   ("personal care", ["ISO 14001"]),
   ("packaging", ["FSC", "Carbon Trust"]),
   ("wildlife products", ["CITES"]),
   ("exotic materials", ["CITES"]),
   ("leather", ["CITES", "ISO 14001"])]

/-- `_identify_missing_certs(category, claimed)` from `cert_matcher.py`. -/
def identify_missing_certs (category : String) (claimed : List String) :
    List MissingCert :=
  let recommended := ((CATEGORY_RECOMMENDATIONS.lookup (lowerStr category)).getD [])
  (recommended.filter (fun c => !claimed.contains c)).map (fun c =>
    { cert := c
      reason := "Recommended for " ++ category ++ " products"
      guidance := guidanceFor c })

/-- `_overall_status(results)` from `cert_matcher.py`. -/
def overall_status (results : List CertResult) : String :=
  if results.isEmpty then "NO_CERTS_CLAIMED"
  else if results.all (fun r => r.status == "VERIFIED") then "ALL_VERIFIED"
  else if results.any (fun r => r.status == "NOT_FOUND" || r.status == "EXPIRED") then "FAILED"
  else "PARTIAL"

/-- Return value of `verify_certificates`. -/
structure CertVerification where
  verification_results : List CertResult
  missing_recommended : List MissingCert
  overall_cert_status : String
deriving Repr, DecidableEq

/-- `verify_certificates(company_name, claimed_certs, product_category)`
from `cert_matcher.py`. -/
def verify_certificates (registry : List CertRecord) (today : Int)
    (company_name : String) (claimed_certs : List String)
    (product_category : String) : CertVerification :=
  let results := claimed_certs.map
    (fun ct => verify_single_cert registry today company_name ct product_category)
  { verification_results := results
    missing_recommended := identify_missing_certs product_category claimed_certs
    overall_cert_status := overall_status results }

/-! ## risk_scorer.py -/

/-- One entry of the static `sdg15_targets.json` table: target id mapped
to `{label, severity, keywords}`.  The table is a provisioning input; the
scorer iterates it in order (Python dict insertion order). -/
structure SdgTarget where
  target : String
  label : String
  severity : ℚ
  keywords : List String
deriving Repr, DecidableEq

/-- A detected claim as produced by the extractor and consumed by the
scorer: `{phrase, type, confidence, position, context}`. -/
structure Claim where
  phrase : String
  type : String
  confidence : ℚ
  position : Nat
  context : String
deriving Repr, DecidableEq

/-- A linguistic red flag `{pattern, description, position}`. -/
structure RedFlag where
  pattern : String
  description : String
  position : Nat
deriving Repr, DecidableEq

/-- The AI-generated-content heuristic result `{risk, score, indicators}`. -/
structure AIRisk where
  risk : String
  score : Nat
  indicators : List String
deriving Repr, DecidableEq

/-- Substring test on character lists (Python `needle in haystack`). -/
def subList (needle hay : List Char) : Bool :=
  match hay with
  | [] => needle.isEmpty
  | _ :: t => needle.isPrefixOf hay || subList needle t

/-- Substring test on strings. -/
def strContains (hay needle : String) : Bool := subList needle.toList hay.toList

/-- `CLAIM_WEIGHTS.get(claim["type"], 10)` from `risk_scorer.py`. -/
def claimWeight (ty : String) : ℕ :=
  if ty = "absolute" then 40
  else if ty = "misleading" then 30
  else if ty = "vague" then 15
  else 10

/-- `CERT_STATUS_PENALTIES.get(status, 0)` from `risk_scorer.py` — note the
table carries a `NO_CERTS_CLAIMED` entry worth 10 points. -/
def certStatusPenalty (status : String) : ℕ :=
  if status = "NOT_FOUND" then 25
  else if status = "EXPIRED" then 20
  else if status = "SCOPE_MISMATCH" then 15
  else if status = "NO_CERTS_CLAIMED" then 10
  else 0

/-- `_find_sdg_target(phrase)` from `risk_scorer.py`: first target (in
table order) one of whose keywords matches the phrase by substring in
either direction, case-insensitively. -/
def find_sdg_target (table : List SdgTarget) (phrase : String) : Option SdgTarget :=
  table.find? (fun t => t.keywords.any (fun k =>
    strContains (lowerStr phrase) (lowerStr k) || strContains (lowerStr k) (lowerStr phrase)))

/-- One `score_breakdown` entry. -/
structure BreakdownEntry where
  source : String
  type : String
  points : ℚ
  sdg_target : Option String
deriving Repr, DecidableEq

/-- Python `round(x, 1)` on a rational. -/
def pyRound1 (q : ℚ) : ℚ := (pyRound (q * 10) : ℚ) / 10

/-- Python `round(x, 2)` on a rational. -/
def pyRound2 (q : ℚ) : ℚ := (pyRound (q * 100) : ℚ) / 100

/-- The visibility-impact record, `_calculate_visibility_impact`'s value. -/
structure VisibilityImpact where
  action : String
  adjustment : String
  badge : String
  badge_color : String
  description : String
deriving Repr, DecidableEq

/-- `_calculate_visibility_impact(score)` from `risk_scorer.py`. -/
def calculate_visibility_impact (score : ℤ) : VisibilityImpact :=
  if score < 20 then
    { action := "BOOST"
      adjustment := "+25% search ranking"
      badge := "Verified Green Product"
      badge_color := "green"
      description := "Product eligible for verified sustainability badge and search promotion" }
  else if score < 50 then
    { action := "HOLD"
      adjustment := "No ranking change — pending review"
      badge := "Under Review"
      badge_color := "amber"
      description := "Product listing held pending seller clarification or certification submission" }
  else
    { action := "DEMOTE"
      adjustment := "-40% search ranking"
      badge := "Unverified Claims"
      badge_color := "red"
      description := "Product demoted in search results until claims are verified or removed" }

/-- `_classify_verdict(score)` from `risk_scorer.py`. -/
def classify_verdict (score : ℤ) : String :=
  if score < 20 then "VERIFIED"
  else if score < 50 then "REVIEW_REQUIRED"
  else "GREENWASHED"

/-- The scorer's return value.  `sdg_targets_affected` is modelled by the
list of affected target ids in first-hit order (the Python value is the
corresponding list of target-data dicts). -/
structure RiskAssessment where
  risk_score : ℤ
  verdict : String
  sdg_targets_affected : List String
  score_breakdown : List BreakdownEntry
  visibility_impact : VisibilityImpact
  total_claims : ℕ
  total_cert_failures : ℕ
deriving Repr, DecidableEq

/-- One iteration of the claims loop of `calculate_risk_score`: the
accumulator is (score, breakdown, affected target ids in first-hit order). -/
def scoreClaimStep (table : List SdgTarget)
    (acc : ℚ × List BreakdownEntry × List String) (claim : Claim) :
    ℚ × List BreakdownEntry × List String :=
  let (score, breakdown, flags) := acc
  let sdg_hit := find_sdg_target table claim.phrase
  let multiplier : ℚ := match sdg_hit with | some t => t.severity | none => 1
  let claim_score := (claimWeight claim.type : ℚ) * multiplier
  let entry : BreakdownEntry :=
    { source := "Claim: '" ++ claim.phrase ++ "'"
      type := claim.type
      points := pyRound1 claim_score
      sdg_target := sdg_hit.map (·.target) }
  let flags' := match sdg_hit with
    | some t => if flags.contains t.target then flags else flags ++ [t.target]
    | none => flags
  (score + claim_score, breakdown ++ [entry], flags')

/-- Step 1 of `calculate_risk_score`: fold over the claims. -/
def scoreClaims (table : List SdgTarget) (claims : List Claim) :
    ℚ × List BreakdownEntry × List String :=
  claims.foldl (scoreClaimStep table) (0, [], [])

/-- One iteration of the certificate-penalty loop of `calculate_risk_score`. -/
def scoreCertStep (acc : ℚ × List BreakdownEntry) (cert : CertResult) :
    ℚ × List BreakdownEntry :=
  let (score, breakdown) := acc
  let penalty := certStatusPenalty cert.status
  if 0 < penalty then
    (score + (penalty : ℚ), breakdown ++
      [{ source := "Certificate: " ++ cert.cert ++ " — " ++ cert.status
         type := "cert_failure"
         points := (penalty : ℚ)
         sdg_target := none }])
  else (score, breakdown)

/-- Step 2 of `calculate_risk_score`: certificate penalties. -/
def scoreCerts (cert_results : List CertResult) : ℚ × List BreakdownEntry :=
  cert_results.foldl scoreCertStep (0, [])

/-- Step 3 of `calculate_risk_score`: missing-proof penalty. -/
def scoreMissingProof (has_proof_markers : Bool) (nclaims : ℕ) :
    ℚ × List BreakdownEntry :=
  if !has_proof_markers ∧ 0 < nclaims then
    (10, [{ source := "No verifiable proof markers found in description"
            type := "missing_proof", points := 10, sdg_target := none }])
  else (0, [])

/-- Step 4 of `calculate_risk_score`: linguistic red-flag penalty. -/
def scoreRedFlags (red_flags : List RedFlag) : ℚ × List BreakdownEntry :=
  if 0 < red_flags.length then
    let flag_penalty : ℕ := min (red_flags.length * 5) 20
    ((flag_penalty : ℚ),
     [{ source := toString red_flags.length ++ " linguistic red flag(s) detected"
        type := "linguistic_flags", points := (flag_penalty : ℚ)
        sdg_target := none }])
  else (0, [])

/-- Step 5 of `calculate_risk_score`: AI-generated content boost. -/
def scoreAiBoost (ai_generated_risk : AIRisk) : ℚ × List BreakdownEntry :=
  let ai_boost : ℕ :=
    if ai_generated_risk.risk = "high" then 15
    else if ai_generated_risk.risk = "medium" then 8
    else 0
  if 0 < ai_boost then
    ((ai_boost : ℚ), [{ source := "Possible AI-generated greenwashing content detected"
                        type := "ai_generated_risk", points := (ai_boost : ℚ)
                        sdg_target := none }])
  else (0, [])

/-- `calculate_risk_score(claims, cert_results, red_flags,
has_proof_markers, ai_generated_risk)` from `risk_scorer.py`. -/
def calculate_risk_score (table : List SdgTarget) (claims : List Claim)
    (cert_results : List CertResult) (red_flags : List RedFlag)
    (has_proof_markers : Bool) (ai_generated_risk : AIRisk) : RiskAssessment :=
  let (s1, b1, sdg_flags) := scoreClaims table claims
  let (s2, b2) := scoreCerts cert_results
  let (s3, b3) := scoreMissingProof has_proof_markers claims.length
  let (s4, b4) := scoreRedFlags red_flags
  let (s5, b5) := scoreAiBoost ai_generated_risk
  let score := s1 + s2 + s3 + s4 + s5
  let final_score : ℤ := min (pyRound score) 100
  { risk_score := final_score
    verdict := classify_verdict final_score
    sdg_targets_affected := sdg_flags
    score_breakdown := b1 ++ b2 ++ b3 ++ b4 ++ b5
    visibility_impact := calculate_visibility_impact final_score
    total_claims := claims.length
    total_cert_failures := (cert_results.filter (fun c => c.status ≠ "VERIFIED")).length }

/-! ## nlp_engine.py -/

/-- Python `\s` (ASCII whitespace, as used by `str.split()` and `re`). -/
def pyIsSpace (c : Char) : Bool :=
  c = ' ' || c = '\t' || c = '\n' || c = '\r' || c = '\x0b' || c = '\x0c'

/-- Python `\w` word character (ASCII model). -/
def wordChar (c : Char) : Bool := c.isAlphanum || c = '_'

/-- Accumulator for whitespace splitting. -/
def splitWsAux : List Char → List Char → List (List Char)
  | [], acc => if acc.isEmpty then [] else [acc.reverse]
  | c :: t, acc =>
    if pyIsSpace c then
      if acc.isEmpty then splitWsAux t [] else acc.reverse :: splitWsAux t []
    else splitWsAux t (c :: acc)

/-- Python `str.split()` with no argument: split on whitespace runs,
dropping empty tokens. -/
def splitWs (cs : List Char) : List (List Char) := splitWsAux cs []

/-- Python `str.split(".")`: split on every dot, keeping empty pieces
(never returns an empty list). -/
def splitDot : List Char → List (List Char)
  | [] => [[]]
  | c :: t =>
    if c = '.' then [] :: splitDot t
    else
      match splitDot t with
      | h :: r => (c :: h) :: r
      | [] => [[c]]

/-- Python `haystack.find(needle)`: offset of the first occurrence. -/
def findSubstr (needle : List Char) : List Char → Option Nat
  | [] => if needle.isEmpty then some 0 else none
  | c :: t =>
    if needle.isPrefixOf (c :: t) then some 0
    else (findSubstr needle t).map (· + 1)

/-- Does the regex `\d+%|\d+\s*(kg|tonnes|hectares|km)` match starting at
this suffix?  The literals following `\d+` / `\s*` start with neither a
digit nor whitespace, so maximal munch is equivalent to backtracking. -/
def numUnitAt (s : List Char) : Bool :=
  match s with
  | [] => false
  | c :: rest =>
    c.isDigit &&
      (let after := rest.dropWhile Char.isDigit
       "%".toList.isPrefixOf after ||
        (let after2 := after.dropWhile pyIsSpace
         "kg".toList.isPrefixOf after2 || "tonnes".toList.isPrefixOf after2 ||
         "hectares".toList.isPrefixOf after2 || "km".toList.isPrefixOf after2))

/-- `re.search(r'\d+%|\d+\s*(kg|tonnes|hectares|km)', text)` as a Bool. -/
def hasNumUnit (cs : List Char) : Bool := cs.tails.any numUnitAt

/-- The `LINGUISTIC_RED_FLAGS` patterns of `nlp_engine.py`, expanded from
regex alternations (with their `\b` boundaries handled by `searchAlts`)
into literal alternatives, paired with the fixed description. -/
def RED_FLAG_ALTS : List (List String × String) :=
  [(["our commitment to", "we are committed to", "we strive to", "we aim to"],
    "Vague pledge without measurable target"),
   (["up to", "as much as", "can be", "may be"],
    "Hedging language undermining claim strength"),
   (["greener", "more sustainable", "better for", "cleaner than"],
    "Unqualified comparative — no reference point given"),
   (["designed with nature", "made with nature", "crafted with nature", "inspired by nature"],
    "Nature-association language without substance"),
   (["responsibly made", "responsibly sourced", "responsibly crafted",
     "thoughtfully made", "thoughtfully sourced", "thoughtfully crafted",
     "carefully made", "carefully sourced", "carefully crafted"],
    "Adverb-washing — adverb not backed by standard")]

/-- Try to match one of the literal alternatives at the current position,
with `\b` word boundaries on both sides (`prev` is the preceding char). -/
def altMatchAt (alts : List String) (prev : Option Char) (s : List Char) : Option String :=
  if (match prev with | none => true | some c => !wordChar c) then
    alts.find? (fun a =>
      a.toList.isPrefixOf s &&
        (match s.drop a.toList.length with
         | [] => true
         | c :: _ => !wordChar c))
  else none

/-- `re.search` for a boundary-delimited literal alternation: leftmost
match wins; returns (matched text, offset). -/
def searchAlts (alts : List String) : Option Char → Nat → List Char → Option (String × Nat)
  | _, _, [] => none
  | prev, pos, c :: t =>
    match altMatchAt alts prev (c :: t) with
    | some a => some (a, pos)
    | none => searchAlts alts (some c) (pos + 1) t

/-- `_detect_red_flags(text)` from `nlp_engine.py`: at most the first
match per pattern, scanned over the lower-cased text. -/
def detect_red_flags (text : String) : List RedFlag :=
  let tl := lowerL text.toList
  RED_FLAG_ALTS.filterMap (fun pd =>
    (searchAlts pd.1 none 0 tl).map (fun m =>
      { pattern := m.1, description := pd.2, position := m.2 }))

/-- The `proof_markers` list of `_has_proof_markers`. -/
def PROOF_MARKERS : List String :=
  ["certificate", "certified", "certification", "verified by",
   "audited by", "third-party", "third party", "iso ", "fsc",
   "pefc", "rainforest alliance", "carbon trust", "cites",
   "registration number", "cert no", "license no"]

/-- `_has_proof_markers(text_lower)` from `nlp_engine.py`. -/
def proofMarkersIn (text_lower : String) : Bool :=
  PROOF_MARKERS.any (fun m => strContains text_lower m)

/-- The fixed green vocabulary of `_assess_ai_generated_risk`. -/
def GREEN_VOCAB : List String :=
  ["sustainable", "eco", "green", "natural", "organic",
   "biodegradable", "renewable", "ethical", "responsible", "conscious"]

/-- Render a rational as a one-decimal percentage (Python `f"{q:.1%}"`). -/
def formatPct1 (q : ℚ) : String :=
  let n := pyRound (q * 1000)
  toString (n / 10) ++ "." ++ toString (n % 10) ++ "%"

/-- `_assess_ai_generated_risk(text)` from `nlp_engine.py`.  Each Python
`if cond: score += n; indicators.append(s)` block is rendered as a score
increment and an indicator list, both guarded by `cond`. -/
def assess_ai_generated_risk (text : String) : AIRisk :=
  let words := splitWs text.toList
  if words.isEmpty then { risk := "low", score := 0, indicators := [] }
  else
    let green_word_count := words.countP (fun w => GREEN_VOCAB.contains (String.mk (lowerL w)))
    let density : ℚ := (green_word_count : ℚ) / (words.length : ℚ)
    let score1 : ℕ := if 8/100 < density then 30 else 0
    let ind1 : List String :=
      if 8/100 < density then
        ["High green keyword density (" ++ formatPct1 density ++ ")"]
      else []
    let sentences := splitDot text.toList
    let avg_len : ℚ :=
      ((sentences.map (fun s => (splitWs s).length)).sum : ℚ) / (max sentences.length 1 : ℚ)
    let score2 : ℕ := if 15 < avg_len ∧ avg_len < 22 then 20 else 0
    let ind2 : List String :=
      if 15 < avg_len ∧ avg_len < 22 then
        ["Unusually uniform sentence length pattern"]
      else []
    let has_numbers := hasNumUnit text.toList
    let score3 : ℕ := if !has_numbers ∧ 30 < words.length then 25 else 0
    let ind3 : List String :=
      if !has_numbers ∧ 30 < words.length then
        ["No specific measurements or data points found"]
      else []
    let score := score1 + score2 + score3
    let risk_level := if 50 ≤ score then "high" else if 25 ≤ score then "medium" else "low"
    { risk := risk_level, score := score, indicators := ind1 ++ ind2 ++ ind3 }

/-- `min` on rationals written with an explicit comparison (so that it
evaluates by kernel reduction), modelling Python `min(a, b)`. -/
def ratMin (a b : ℚ) : ℚ := if a ≤ b then a else b

/-- Per-type base confidence of `extract_claims`. -/
def claimBaseConfidence (claim_type : String) : ℚ :=
  if claim_type = "absolute" then 92/100
  else if claim_type = "misleading" then 85/100
  else if claim_type = "vague" then 78/100
  else 75/100

/-- `_extract_context(text, start, length)` from `nlp_engine.py`. -/
def extract_context (text : String) (start length : Nat) : String :=
  let window := 40
  let ctx_start := start - window
  let ctx_end := min text.length (start + length + window)
  let snippet := String.mk ((text.toList.take ctx_end).drop ctx_start)
  if 0 < ctx_start then "..." ++ snippet ++ "..." else snippet ++ "..."

/-- Return value of `extract_claims`. -/
structure ExtractResult where
  claims : List Claim
  red_flags : List RedFlag
  has_proof_markers : Bool
  claim_count : ℕ
  is_ai_generated_risk : AIRisk
deriving Repr, DecidableEq

/-- One step of the keyword-extraction loop of `extract_claims`: the
accumulator is (detected claims, seen phrases). -/
def extractStep (text : String) (text_lower : List Char)
    (acc : List Claim × List String) (ct_p : String × String) :
    List Claim × List String :=
  let (detected, seen) := acc
  let (claim_type, phrase) := ct_p
  if subList (lowerL phrase.toList) text_lower && !seen.contains phrase then
    let start_idx := (findSubstr (lowerL phrase.toList) text_lower).getD 0
    let base := claimBaseConfidence claim_type
    let boost : ℚ := if start_idx < 50 then 5/100 else 0
    (detected ++ [{ phrase := phrase
                    type := claim_type
                    confidence := pyRound2 (ratMin (base + boost) (99/100))
                    position := start_idx
                    context := extract_context text start_idx phrase.length }],
     seen ++ [phrase])
  else acc

/-- `extract_claims(text)` from `nlp_engine.py`, with the keyword taxonomy
(claim type → ordered phrase list, in table order) explicit. -/
def extract_claims (keywords : List (String × List String)) (text : String) :
    ExtractResult :=
  let text_lower := lowerL text.toList
  let pairs := (keywords.map (fun tp => tp.2.map (fun p => (tp.1, p)))).flatten
  let (detected, _) := pairs.foldl (extractStep text text_lower) ([], [])
  { claims := detected
    red_flags := detect_red_flags text
    has_proof_markers := proofMarkersIn (String.mk text_lower)
    claim_count := detected.length
    is_ai_generated_risk := assess_ai_generated_risk text }

/-! ## predictive_engine.py -/

/-- A `SUBMISSION_HISTORY` entry. -/
structure SubmissionEntry where
  company : String
  product : String
  verdict : String
  risk_score : ℤ
  claim_count : ℕ
  timestamp : String
  claim_phrases : List String
deriving Repr, DecidableEq

/-- A `SELLER_PROFILES` value.  `recurring_phrases` is an insertion-ordered
association list (Python dict).  The Python init dict has no
`avg_risk_score` key; it is set when an update completes, and a profile
is first stored by a company's first-submission update, which always
completes, so every stored profile carries it (after a later update's
`KeyError` the previously computed value persists, stale). -/
structure SellerProfile where
  company : String
  total_submissions : ℕ
  greenwashed_count : ℕ
  review_count : ℕ
  verified_count : ℕ
  total_risk_score : ℤ
  recurring_phrases : List (String × ℕ)
  first_seen : String
  last_seen : String
  alert_level : String
  avg_risk_score : ℤ
deriving Repr, DecidableEq

/-- The profile created on a company's first submission. -/
def freshProfile (company timestamp : String) : SellerProfile :=
  { company := company
    total_submissions := 0
    greenwashed_count := 0
    review_count := 0
    verified_count := 0
    total_risk_score := 0
    recurring_phrases := []
    first_seen := timestamp
    last_seen := timestamp
    alert_level := "LOW"
    avg_risk_score := 0 }

/-- `_compute_alert_level(profile)` from `predictive_engine.py`. -/
def compute_alert_level (greenwashed_count total_submissions : ℕ) : String :=
  let greenwash_rate : ℚ := (greenwashed_count : ℚ) / ((max total_submissions 1 : ℕ) : ℚ)
  if 3/5 ≤ greenwash_rate ∨ 3 ≤ greenwashed_count then "HIGH"
  else if 3/10 ≤ greenwash_rate ∨ 2 ≤ greenwashed_count then "MEDIUM"
  else "LOW"

/-- `profile["recurring_phrases"][phrase] += 1` on a `defaultdict(int)`
(insert-or-increment), preserving dict insertion order.  Only the
freshly created profile of a company's FIRST submission carries a
`defaultdict`: line 64 of `predictive_engine.py` converts it to a plain
`dict` before the update returns. -/
def bumpPhrase (m : List (String × ℕ)) (p : String) : List (String × ℕ) :=
  match m with
  | [] => [(p, 1)]
  | (q, n) :: t => if q = p then (q, n + 1) :: t else (q, n) :: bumpPhrase t p

/-- `profile["recurring_phrases"][phrase] += 1` on a plain `dict` — the
table every submission after the first sees.  `none` is the `KeyError`
Python raises when the phrase is absent. -/
def bumpPhrasePlain (m : List (String × ℕ)) (p : String) :
    Option (List (String × ℕ)) :=
  match m with
  | [] => none
  | (q, n) :: t =>
    if q = p then some ((q, n + 1) :: t)
    else (bumpPhrasePlain t p).map (fun t' => (q, n) :: t')

/-- The `for phrase in entry["claim_phrases"]` loop over a plain dict:
phrases are bumped in order, and the first absent phrase raises
`KeyError`.  `.error` carries the table as mutated up to that point
(the in-place increments already applied persist). -/
def bumpAllPlain : List (String × ℕ) → List String →
    Except (List (String × ℕ)) (List (String × ℕ))
  | m, [] => .ok m
  | m, p :: ps =>
    match bumpPhrasePlain m p with
    | some m' => bumpAllPlain m' ps
    | none => .error m

/-- `_update_seller_profile(company, entry)` from `predictive_engine.py`
as a function from the company's previous profile (if any) to the stored
one.  On a first submission `recurring_phrases` is the freshly created
`defaultdict(int)` (line 40), so every phrase bump succeeds.  On every
later submission it is the plain dict left behind by line 64, so a claim
phrase not already recorded raises `KeyError` at line 59 — AFTER
`total_submissions`, `total_risk_score`, `last_seen` and the verdict
tally were incremented in place (lines 47–56).  `.error` carries the
profile as left stored in that case: counters updated, earlier phrases
of this submission bumped, but `alert_level` and `avg_risk_score` kept
from the previous update (lines 62–63 never run). -/
def update_seller_profile (prev : Option SellerProfile) (company : String)
    (entry : SubmissionEntry) : Except SellerProfile SellerProfile :=
  match prev with
  | none =>
    let p0 := freshProfile company entry.timestamp
    let p1 := { p0 with total_submissions := p0.total_submissions + 1
                        total_risk_score := p0.total_risk_score + entry.risk_score
                        last_seen := entry.timestamp }
    let p2 :=
      if entry.verdict = "GREENWASHED" then
        { p1 with greenwashed_count := p1.greenwashed_count + 1 }
      else if entry.verdict = "REVIEW_REQUIRED" then
        { p1 with review_count := p1.review_count + 1 }
      else
        { p1 with verified_count := p1.verified_count + 1 }
    let p3 := { p2 with recurring_phrases :=
                  entry.claim_phrases.foldl bumpPhrase p2.recurring_phrases }
    .ok { p3 with
            alert_level := compute_alert_level p3.greenwashed_count p3.total_submissions
            avg_risk_score := pyRound ((p3.total_risk_score : ℚ) / (p3.total_submissions : ℚ)) }
  | some q =>
    let p1 := { q with total_submissions := q.total_submissions + 1
                       total_risk_score := q.total_risk_score + entry.risk_score
                       last_seen := entry.timestamp }
    let p2 :=
      if entry.verdict = "GREENWASHED" then
        { p1 with greenwashed_count := p1.greenwashed_count + 1 }
      else if entry.verdict = "REVIEW_REQUIRED" then
        { p1 with review_count := p1.review_count + 1 }
      else
        { p1 with verified_count := p1.verified_count + 1 }
    match bumpAllPlain p2.recurring_phrases entry.claim_phrases with
    | .ok m =>
      let p3 := { p2 with recurring_phrases := m }
      .ok { p3 with
              alert_level := compute_alert_level p3.greenwashed_count p3.total_submissions
              avg_risk_score := pyRound ((p3.total_risk_score : ℚ) / (p3.total_submissions : ℚ)) }
    | .error m => .error { p2 with recurring_phrases := m }

/-- The module-level mutable state: `SUBMISSION_HISTORY` and
`SELLER_PROFILES` (insertion-ordered, case-sensitive company keys). -/
structure LedgerState where
  history : List SubmissionEntry
  profiles : List (String × SellerProfile)
deriving Repr, DecidableEq

/-- The state at process start: both stores empty. -/
def initialLedger : LedgerState := { history := [], profiles := [] }

/-- Store a profile under a key: overwrite in place if the key exists,
else append (Python dict assignment). -/
def setProfile : List (String × SellerProfile) → String → SellerProfile →
    List (String × SellerProfile)
  | [], c, p => [(c, p)]
  | (k, q) :: t, c, p => if k = c then (k, p) :: t else (k, q) :: setProfile t c p

/-- `record_submission(company, product, verdict, risk_score, claims)` from
`predictive_engine.py` as a state transformer.  `claim_phrases` is the
list `[c["phrase"] for c in claims]` and `now` the timestamp taken from
`datetime.now()`.  The history entry is appended before the profile
update, so when the update raises `KeyError`, the exception propagates
out of `record_submission` with the entry already in the history and the
partially updated profile already stored: `.error` carries the module
state as left behind by the raised exception. -/
def record_submission (st : LedgerState) (company product verdict : String)
    (risk_score : ℤ) (claim_phrases : List String) (now : String) :
    Except LedgerState LedgerState :=
  let entry : SubmissionEntry :=
    { company := company
      product := product
      verdict := verdict
      risk_score := risk_score
      claim_count := claim_phrases.length
      timestamp := now
      claim_phrases := claim_phrases }
  match update_seller_profile (st.profiles.lookup company) company entry with
  | .ok p => .ok { history := st.history ++ [entry]
                   profiles := setProfile st.profiles company p }
  | .error p => .error { history := st.history ++ [entry]
                         profiles := setProfile st.profiles company p }

/-- Result of `get_seller_risk_profile`: the stored profile, or the
placeholder dict `{company, total_submissions: 0, alert_level: "LOW",
message}` when the company is unknown. -/
inductive ProfileResult where
  | found (p : SellerProfile)
  | placeholder (company : String) (total_submissions : ℕ)
      (alert_level : String) (message : String)
deriving Repr, DecidableEq

/-- `get_seller_risk_profile(company)` from `predictive_engine.py`. -/
def get_seller_risk_profile (st : LedgerState) (company : String) : ProfileResult :=
  match st.profiles.lookup company with
  | some p => .found p
  | none => .placeholder company 0 "LOW" "No prior submission history found"

/-- One `recurring_patterns` entry of an alert. -/
structure RecurringPattern where
  phrase : String
  occurrences : ℕ
deriving Repr, DecidableEq

/-- One early-alert entry. -/
structure Alert where
  company : String
  alert_level : String
  greenwashed_count : ℕ
  total_submissions : ℕ
  avg_risk_score : ℤ
  recurring_patterns : List RecurringPattern
  recommended_action : String
  last_seen : String
deriving Repr, DecidableEq

/-- Stable insertion into a descending-sorted list: `a` goes before the
first element strictly below it (Python's stable `sorted(reverse=True)`). -/
def stableInsert {α : Type} (lt : α → α → Bool) (a : α) : List α → List α
  | [] => [a]
  | b :: t => if lt b a then a :: b :: t else b :: stableInsert lt a t

/-- Stable descending sort (model of Python `sorted(..., reverse=True)`). -/
def stableSortDesc {α : Type} (lt : α → α → Bool) (l : List α) : List α :=
  l.foldl (fun acc a => stableInsert lt a acc) []

/-- The recurring-phrase ranking inside `get_early_alerts`: phrases with
count > 1, sorted by descending count (stable), first three. -/
def topRecurring (m : List (String × ℕ)) : List (String × ℕ) :=
  (stableSortDesc (fun x y => x.2 < y.2) (m.filter (fun pc => 1 < pc.2))).take 3

/-- `_recommend_action(profile)` from `predictive_engine.py`. -/
def recommend_action (alert_level : String) : String :=
  if alert_level = "HIGH" then
    "Escalate for formal investigation — pattern of repeated greenwashing detected"
  else if alert_level = "MEDIUM" then
    "Issue warning notice and require certification submission within 14 days"
  else
    "Monitor — flag for review if next submission is also non-compliant"

/-- The alert built for one profile in `get_early_alerts`. -/
def profileAlert (company : String) (p : SellerProfile) : Alert :=
  { company := company
    alert_level := p.alert_level
    greenwashed_count := p.greenwashed_count
    total_submissions := p.total_submissions
    avg_risk_score := p.avg_risk_score
    recurring_patterns := (topRecurring p.recurring_phrases).map (fun pc => ⟨pc.1, pc.2⟩)
    recommended_action := recommend_action p.alert_level
    last_seen := p.last_seen }

/-- The final sort key comparison of `get_early_alerts`:
`key=lambda x: (x["alert_level"] == "HIGH", x["greenwashed_count"])`. -/
def alertKeyLt (x y : Alert) : Bool :=
  let xk : ℕ := if x.alert_level = "HIGH" then 1 else 0
  let yk : ℕ := if y.alert_level = "HIGH" then 1 else 0
  xk < yk || (xk = yk && x.greenwashed_count < y.greenwashed_count)

/-- `get_early_alerts()` from `predictive_engine.py`. -/
def get_early_alerts (st : LedgerState) : List Alert :=
  stableSortDesc alertKeyLt
    ((st.profiles.filter
        (fun kp => kp.2.alert_level = "HIGH" || kp.2.alert_level = "MEDIUM")).map
      (fun kp => profileAlert kp.1 kp.2))

/-! ## Shared lemmas -/

theorem pyRound_nonneg {q : ℚ} (h : 0 ≤ q) : 0 ≤ pyRound q := by
  have hf : (0 : ℤ) ≤ ⌊q⌋ := Int.floor_nonneg.mpr h
  unfold pyRound
  split
  · exact hf
  · split
    · omega
    · split <;> omega

theorem pyRound1_nonneg {q : ℚ} (h : 0 ≤ q) : 0 ≤ pyRound1 q := by
  unfold pyRound1
  have : (0 : ℤ) ≤ pyRound (q * 10) := pyRound_nonneg (by positivity)
  positivity

theorem classify_verdict_spec (s : ℤ) :
    (classify_verdict s = "VERIFIED" ↔ s < 20) ∧
    (classify_verdict s = "REVIEW_REQUIRED" ↔ 20 ≤ s ∧ s < 50) ∧
    (classify_verdict s = "GREENWASHED" ↔ 50 ≤ s) := by
  unfold classify_verdict
  by_cases h1 : s < 20 <;> by_cases h2 : s < 50 <;>
    simp [h1, h2] <;> omega

/-- The multiplier chosen for a claim phrase is the severity of a table
entry, or 1; hence non-negative whenever the table's severities are. -/
theorem claim_multiplier_nonneg (table : List SdgTarget)
    (hsev : ∀ t ∈ table, 0 ≤ t.severity) (phrase : String) :
    0 ≤ (match find_sdg_target table phrase with
         | some t => t.severity
         | none => (1 : ℚ)) := by
  cases hfind : find_sdg_target table phrase with
  | none => norm_num
  | some t => exact hsev t (List.mem_of_find?_eq_some hfind)

theorem scoreClaims_fold_nonneg (table : List SdgTarget)
    (hsev : ∀ t ∈ table, 0 ≤ t.severity) (claims : List Claim) :
    ∀ (acc : ℚ × List BreakdownEntry × List String),
      0 ≤ acc.1 → (∀ e ∈ acc.2.1, 0 ≤ e.points) →
      0 ≤ (claims.foldl (scoreClaimStep table) acc).1 ∧
      ∀ e ∈ (claims.foldl (scoreClaimStep table) acc).2.1, 0 ≤ e.points := by
  induction claims with
  | nil => intro acc h1 h2; exact ⟨h1, h2⟩
  | cons claim rest ih =>
    intro acc h1 h2
    rw [List.foldl_cons]
    obtain ⟨sc, bd, fl⟩ := acc
    have hmul := claim_multiplier_nonneg table hsev claim.phrase
    have hcs : 0 ≤ (claimWeight claim.type : ℚ) *
        (match find_sdg_target table claim.phrase with
         | some t => t.severity
         | none => (1 : ℚ)) := mul_nonneg (by positivity) hmul
    apply ih
    · simpa [scoreClaimStep] using add_nonneg h1 hcs
    · intro e he
      simp only [scoreClaimStep, List.mem_append, List.mem_singleton] at he
      rcases he with he | he
      · exact h2 e he
      · subst he
        exact pyRound1_nonneg hcs

theorem scoreClaims_nonneg (table : List SdgTarget)
    (hsev : ∀ t ∈ table, 0 ≤ t.severity) (claims : List Claim) :
    0 ≤ (scoreClaims table claims).1 ∧
    ∀ e ∈ (scoreClaims table claims).2.1, 0 ≤ e.points :=
  scoreClaims_fold_nonneg table hsev claims (0, [], []) le_rfl (by simp)

theorem scoreCerts_fold_nonneg (cert_results : List CertResult) :
    ∀ (acc : ℚ × List BreakdownEntry),
      0 ≤ acc.1 → (∀ e ∈ acc.2, 0 ≤ e.points) →
      0 ≤ (cert_results.foldl scoreCertStep acc).1 ∧
      ∀ e ∈ (cert_results.foldl scoreCertStep acc).2, 0 ≤ e.points := by
  induction cert_results with
  | nil => intro acc h1 h2; exact ⟨h1, h2⟩
  | cons cert rest ih =>
    intro acc h1 h2
    rw [List.foldl_cons]
    obtain ⟨sc, bd⟩ := acc
    apply ih
    · by_cases hp : 0 < certStatusPenalty cert.status <;>
        simp [scoreCertStep, hp] <;> positivity
    · intro e he
      by_cases hp : 0 < certStatusPenalty cert.status <;>
        simp only [scoreCertStep, hp, if_pos, if_neg, List.mem_append,
          List.mem_singleton, if_true, if_false] at he
      · rcases he with he | he
        · exact h2 e he
        · subst he; positivity
      · exact h2 e he

theorem scoreCerts_nonneg (cert_results : List CertResult) :
    0 ≤ (scoreCerts cert_results).1 ∧
    ∀ e ∈ (scoreCerts cert_results).2, 0 ≤ e.points :=
  scoreCerts_fold_nonneg cert_results (0, []) le_rfl (by simp)

theorem scoreMissingProof_nonneg (b : Bool) (n : ℕ) :
    0 ≤ (scoreMissingProof b n).1 ∧ ∀ e ∈ (scoreMissingProof b n).2, 0 ≤ e.points := by
  unfold scoreMissingProof
  split <;> simp

theorem scoreRedFlags_nonneg (red_flags : List RedFlag) :
    0 ≤ (scoreRedFlags red_flags).1 ∧ ∀ e ∈ (scoreRedFlags red_flags).2, 0 ≤ e.points := by
  unfold scoreRedFlags
  split <;> simp

theorem scoreAiBoost_nonneg (ai : AIRisk) :
    0 ≤ (scoreAiBoost ai).1 ∧ ∀ e ∈ (scoreAiBoost ai).2, 0 ≤ e.points := by
  unfold scoreAiBoost
  repeat' split
  all_goals simp

/-- Unfolding of `calculate_risk_score` into its five scoring steps. -/
theorem calculate_risk_score_eq (table : List SdgTarget) (claims : List Claim)
    (cert_results : List CertResult) (red_flags : List RedFlag)
    (has_proof_markers : Bool) (ai : AIRisk) :
    calculate_risk_score table claims cert_results red_flags has_proof_markers ai =
      let fs : ℤ := min (pyRound ((scoreClaims table claims).1 + (scoreCerts cert_results).1 +
        (scoreMissingProof has_proof_markers claims.length).1 +
        (scoreRedFlags red_flags).1 + (scoreAiBoost ai).1)) 100
      { risk_score := fs
        verdict := classify_verdict fs
        sdg_targets_affected := (scoreClaims table claims).2.2
        score_breakdown := (scoreClaims table claims).2.1 ++ (scoreCerts cert_results).2 ++
          (scoreMissingProof has_proof_markers claims.length).2 ++
          (scoreRedFlags red_flags).2 ++ (scoreAiBoost ai).2
        visibility_impact := calculate_visibility_impact fs
        total_claims := claims.length
        total_cert_failures := (cert_results.filter (fun c => c.status ≠ "VERIFIED")).length } := by
  unfold calculate_risk_score
  rfl

/-! ## C2 -/

/-- C2: for every input to `calculate_risk_score` (over any SDG-target
table with non-negative severity multipliers, as the provisioned table
has), the returned `risk_score` satisfies `0 ≤ risk_score ≤ 100` — it is
the rounded accumulated sum clamped above at 100, every score
contribution being non-negative — and the verdict is exactly VERIFIED
when `risk_score < 20`, REVIEW_REQUIRED when `20 ≤ risk_score < 50`, and
GREENWASHED when `risk_score ≥ 50`. -/
theorem C2_risk_score_bounds_and_verdict (table : List SdgTarget)
    (claims : List Claim) (cert_results : List CertResult)
    (red_flags : List RedFlag) (has_proof_markers : Bool) (ai : AIRisk)
    (hsev : ∀ t ∈ table, 0 ≤ t.severity) :
    let R := calculate_risk_score table claims cert_results red_flags has_proof_markers ai
    (0 ≤ R.risk_score ∧ R.risk_score ≤ 100) ∧
    (∀ e ∈ R.score_breakdown, 0 ≤ e.points) ∧
    (R.verdict = "VERIFIED" ↔ R.risk_score < 20) ∧
    (R.verdict = "REVIEW_REQUIRED" ↔ 20 ≤ R.risk_score ∧ R.risk_score < 50) ∧
    (R.verdict = "GREENWASHED" ↔ 50 ≤ R.risk_score) := by
  intro R
  have h1 := scoreClaims_nonneg table hsev claims
  have h2 := scoreCerts_nonneg cert_results
  have h3 := scoreMissingProof_nonneg has_proof_markers claims.length
  have h4 := scoreRedFlags_nonneg red_flags
  have h5 := scoreAiBoost_nonneg ai
  have hsum : 0 ≤ (scoreClaims table claims).1 + (scoreCerts cert_results).1 +
      (scoreMissingProof has_proof_markers claims.length).1 +
      (scoreRedFlags red_flags).1 + (scoreAiBoost ai).1 := by
    have := h1.1; have := h2.1; have := h3.1; have := h4.1; have := h5.1
    linarith
  have hround := pyRound_nonneg hsum
  rw [show R = _ from calculate_risk_score_eq table claims cert_results red_flags has_proof_markers ai]
  dsimp only
  refine ⟨⟨?_, ?_⟩, ?_, ?_⟩
  · exact le_min hround (by norm_num)
  · exact min_le_right _ _
  · intro e he
    simp only [List.mem_append] at he
    rcases he with ((((he | he) | he) | he) | he)
    · exact h1.2 e he
    · exact h2.2 e he
    · exact h3.2 e he
    · exact h4.2 e he
    · exact h5.2 e he
  · exact classify_verdict_spec _

/-- Witness for C2 at a concrete input. -/
theorem C2_risk_score_bounds_and_verdict_witness :
    let R := calculate_risk_score [⟨"15.2", "Forests", 3/2, ["deforestation"]⟩]
      [⟨"100% sustainable", "absolute", 92/100, 0, "ctx"⟩] [] [] false ⟨"low", 0, []⟩
    (0 ≤ R.risk_score ∧ R.risk_score ≤ 100) ∧
    (∀ e ∈ R.score_breakdown, 0 ≤ e.points) ∧
    (R.verdict = "VERIFIED" ↔ R.risk_score < 20) ∧
    (R.verdict = "REVIEW_REQUIRED" ↔ 20 ≤ R.risk_score ∧ R.risk_score < 50) ∧
    (R.verdict = "GREENWASHED" ↔ 50 ≤ R.risk_score) :=
  C2_risk_score_bounds_and_verdict [⟨"15.2", "Forests", 3/2, ["deforestation"]⟩]
    [⟨"100% sustainable", "absolute", 92/100, 0, "ctx"⟩] [] [] false ⟨"low", 0, []⟩
    (by intro t ht; simp at ht; subst ht; norm_num)

/-! ## C3 -/

/-- C3: `_verify_single_cert` follows the decision order NOT_FOUND
(severity high) when no registry record matches company and cert type
case-insensitively; else EXPIRED (severity high) when the first matching
record's expiry is strictly before today; else SCOPE_MISMATCH (severity
medium) when the requested category is not in the record's
applicable-categories set case-insensitively; else VERIFIED (severity
none) with `expiry_warning` non-null exactly when the days until expiry
are strictly between 0 and 90. -/
theorem C3_verify_single_cert_decision_order
    (registry : List CertRecord) (today : Int)
    (company cert_type category : String) (res : CertResult)
    (hres : res = verify_single_cert registry today company cert_type category) :
    (registryMatches registry company cert_type = [] →
      res.status = "NOT_FOUND" ∧ res.severity = "high") ∧
    (∀ r rest, registryMatches registry company cert_type = r :: rest →
      (r.expiry < today → res.status = "EXPIRED" ∧ res.severity = "high") ∧
      (¬ r.expiry < today → catInScope r category = false →
        res.status = "SCOPE_MISMATCH" ∧ res.severity = "medium") ∧
      (¬ r.expiry < today → catInScope r category = true →
        res.status = "VERIFIED" ∧ res.severity = "none" ∧
        (res.expiry_warning ≠ none ↔
          0 < r.expiry - today ∧ r.expiry - today < 90))) := by
  subst hres
  unfold verify_single_cert
  constructor
  · intro hm
    rw [hm]
    exact ⟨rfl, rfl⟩
  · intro r rest hm
    rw [hm]
    refine ⟨?_, ?_, ?_⟩
    · intro hexp
      simp [hexp]
    · intro hexp hscope
      simp [hexp, hscope]
    · intro hexp hscope
      by_cases hc : 0 < r.expiry - today ∧ r.expiry - today < 90 <;>
        simp [hexp, hscope, hc]

/-- Witness for C3: a valid, unexpired FSC certificate covering only
"timber", checked against product category "textiles", yields
SCOPE_MISMATCH (severity medium), not VERIFIED. -/
theorem C3_verify_single_cert_decision_order_witness :
    (verify_single_cert
        [⟨"GreenWood Ltd", "FSC", 100, ["timber"], "FSC-123", "FSC International"⟩]
        50 "GreenWood Ltd" "FSC" "textiles").status = "SCOPE_MISMATCH" ∧
    (verify_single_cert
        [⟨"GreenWood Ltd", "FSC", 100, ["timber"], "FSC-123", "FSC International"⟩]
        50 "GreenWood Ltd" "FSC" "textiles").severity = "medium" :=
  ((C3_verify_single_cert_decision_order
      [⟨"GreenWood Ltd", "FSC", 100, ["timber"], "FSC-123", "FSC International"⟩]
      50 "GreenWood Ltd" "FSC" "textiles" _ rfl).2
    ⟨"GreenWood Ltd", "FSC", 100, ["timber"], "FSC-123", "FSC International"⟩ []
    (by decide)).2.1 (by decide) (by decide)

/-! ## C10 -/

/-- C10: certificate verification inspects only the first matching
registry record in registry order — if that record is expired or out of
scope, the result is EXPIRED or SCOPE_MISMATCH no matter what later
matching records (the tail `rest`) contain. -/
theorem C10_first_registry_match_wins
    (registry : List CertRecord) (today : Int)
    (company cert_type category : String) (r : CertRecord) (rest : List CertRecord)
    (hm : registryMatches registry company cert_type = r :: rest) :
    (r.expiry < today →
      (verify_single_cert registry today company cert_type category).status = "EXPIRED") ∧
    (¬ r.expiry < today → catInScope r category = false →
      (verify_single_cert registry today company cert_type category).status = "SCOPE_MISMATCH") := by
  unfold verify_single_cert
  rw [hm]
  constructor
  · intro hexp
    simp [hexp]
  · intro hexp hscope
    simp [hexp, hscope]

/-- Witness for C10: the registry holds an expired timber-only FSC record
for the company followed by an unexpired record covering "textiles";
verification still reports EXPIRED (first part) — and with the expired
record replaced by an unexpired timber-only one, SCOPE_MISMATCH (second
part) — ignoring the later good record. -/
theorem C10_first_registry_match_wins_witness :
    (verify_single_cert
        [⟨"Acme", "FSC", 10, ["timber"], "N1", "B1"⟩,
         ⟨"Acme", "FSC", 900, ["textiles"], "N2", "B2"⟩]
        50 "Acme" "FSC" "textiles").status = "EXPIRED" ∧
    (verify_single_cert
        [⟨"Acme", "FSC", 100, ["timber"], "N1", "B1"⟩,
         ⟨"Acme", "FSC", 900, ["textiles"], "N2", "B2"⟩]
        50 "Acme" "FSC" "textiles").status = "SCOPE_MISMATCH" :=
  ⟨(C10_first_registry_match_wins
      [⟨"Acme", "FSC", 10, ["timber"], "N1", "B1"⟩,
       ⟨"Acme", "FSC", 900, ["textiles"], "N2", "B2"⟩]
      50 "Acme" "FSC" "textiles"
      ⟨"Acme", "FSC", 10, ["timber"], "N1", "B1"⟩
      [⟨"Acme", "FSC", 900, ["textiles"], "N2", "B2"⟩] (by decide)).1 (by decide),
   (C10_first_registry_match_wins
      [⟨"Acme", "FSC", 100, ["timber"], "N1", "B1"⟩,
       ⟨"Acme", "FSC", 900, ["textiles"], "N2", "B2"⟩]
      50 "Acme" "FSC" "textiles"
      ⟨"Acme", "FSC", 100, ["timber"], "N1", "B1"⟩
      [⟨"Acme", "FSC", 900, ["textiles"], "N2", "B2"⟩] (by decide)).2 (by decide) (by decide)⟩

/-! ## C7 -/

theorem overall_status_spec (results : List CertResult) :
    (results = [] → overall_status results = "NO_CERTS_CLAIMED") ∧
    (results ≠ [] → overall_status results ≠ "NO_CERTS_CLAIMED") ∧
    ((∀ r ∈ results, r.status = "VERIFIED") → results ≠ [] →
      overall_status results = "ALL_VERIFIED") ∧
    ((∃ r ∈ results, r.status = "NOT_FOUND" ∨ r.status = "EXPIRED") →
      overall_status results = "FAILED") ∧
    (results ≠ [] → ¬(∀ r ∈ results, r.status = "VERIFIED") →
      ¬(∃ r ∈ results, r.status = "NOT_FOUND" ∨ r.status = "EXPIRED") →
      overall_status results = "PARTIAL") := by
  unfold overall_status
  refine ⟨?_, ?_, ?_, ?_, ?_⟩
  · intro h
    subst h
    rfl
  · intro hne
    have h1 : results.isEmpty = false := by
      simpa [List.isEmpty_iff] using hne
    simp only [h1, Bool.false_eq_true, if_false]
    split
    · decide
    · split <;> decide
  · intro hall hne
    have h1 : results.isEmpty = false := by
      simpa [List.isEmpty_iff] using hne
    have h2 : results.all (fun r => r.status == "VERIFIED") = true := by
      rw [List.all_eq_true]
      intro r hr
      simpa using hall r hr
    simp [h1, h2]
  · rintro ⟨r, hr, hst⟩
    have h1 : results.isEmpty = false := by
      cases results with
      | nil => simp at hr
      | cons a t => rfl
    have h2 : results.all (fun r => r.status == "VERIFIED") = false := by
      rw [List.all_eq_false]
      refine ⟨r, hr, ?_⟩
      rcases hst with h | h <;> simp [h]
    have h3 : results.any (fun r => r.status == "NOT_FOUND" || r.status == "EXPIRED") = true := by
      rw [List.any_eq_true]
      refine ⟨r, hr, ?_⟩
      rcases hst with h | h <;> simp [h]
    simp [h1, h2, h3]
  · intro hne hnall hnex
    have h1 : results.isEmpty = false := by
      simpa [List.isEmpty_iff] using hne
    have h2 : results.all (fun r => r.status == "VERIFIED") = false := by
      rw [← Bool.not_eq_true, List.all_eq_true]
      intro hc
      exact hnall (fun r hr => by simpa using hc r hr)
    have h3 : results.any (fun r => r.status == "NOT_FOUND" || r.status == "EXPIRED") = false := by
      rw [← Bool.not_eq_true, List.any_eq_true]
      rintro ⟨r, hr, hst⟩
      exact hnex ⟨r, hr, by simpa using hst⟩
    simp [h1, h2, h3]

/-- C7: `overall_cert_status` is NO_CERTS_CLAIMED exactly when the claimed
list is empty; ALL_VERIFIED when (the list being non-empty) every
per-cert result is VERIFIED; FAILED when any result is NOT_FOUND or
EXPIRED; PARTIAL otherwise.  For category "timber" (case-insensitively)
with an empty claimed list, `missing_recommended` lists FSC, PEFC and
Carbon Trust. -/
theorem C7_overall_status_and_timber_recommendations
    (registry : List CertRecord) (today : Int) (company category : String)
    (claimed : List String) (V : CertVerification)
    (hV : V = verify_certificates registry today company claimed category) :
    (V.overall_cert_status = "NO_CERTS_CLAIMED" ↔ claimed = []) ∧
    (claimed ≠ [] → (∀ r ∈ V.verification_results, r.status = "VERIFIED") →
      V.overall_cert_status = "ALL_VERIFIED") ∧
    ((∃ r ∈ V.verification_results, r.status = "NOT_FOUND" ∨ r.status = "EXPIRED") →
      V.overall_cert_status = "FAILED") ∧
    (claimed ≠ [] → ¬(∀ r ∈ V.verification_results, r.status = "VERIFIED") →
      ¬(∃ r ∈ V.verification_results, r.status = "NOT_FOUND" ∨ r.status = "EXPIRED") →
      V.overall_cert_status = "PARTIAL") ∧
    (lowerStr category = "timber" → claimed = [] →
      V.missing_recommended.map (·.cert) = ["FSC", "PEFC", "Carbon Trust"]) := by
  subst hV
  have hspec := overall_status_spec
    (claimed.map (fun ct => verify_single_cert registry today company ct category))
  have hmapne : ∀ (h : claimed ≠ []),
      claimed.map (fun ct => verify_single_cert registry today company ct category) ≠ [] := by
    intro h hc
    exact h (List.map_eq_nil_iff.mp hc)
  refine ⟨?_, ?_, ?_, ?_, ?_⟩
  · constructor
    · intro h
      by_contra hne
      exact hspec.2.1 (hmapne hne) h
    · intro h
      subst h
      exact hspec.1 rfl
  · intro hne hall
    exact hspec.2.2.1 hall (hmapne hne)
  · intro hex
    exact hspec.2.2.2.1 hex
  · intro hne hnall hnex
    exact hspec.2.2.2.2 (hmapne hne) hnall hnex
  · intro hcat hcl
    subst hcl
    show (identify_missing_certs category []).map (·.cert) = _
    unfold identify_missing_certs
    rw [hcat]
    rfl

/-- Witness for C7: no claimed certs, category "timber" — overall status
NO_CERTS_CLAIMED and the three recommended certificates reported; and a
single unknown claimed cert gives overall status FAILED. -/
theorem C7_overall_status_and_timber_recommendations_witness :
    (verify_certificates [] 0 "GreenWood Ltd" [] "timber").overall_cert_status
        = "NO_CERTS_CLAIMED" ∧
    (verify_certificates [] 0 "GreenWood Ltd" [] "timber").missing_recommended.map (·.cert)
        = ["FSC", "PEFC", "Carbon Trust"] ∧
    (verify_certificates [] 0 "GreenWood Ltd" ["FSC"] "timber").overall_cert_status
        = "FAILED" :=
  ⟨(C7_overall_status_and_timber_recommendations [] 0 "GreenWood Ltd" "timber" [] _ rfl).1.mpr
      rfl,
   (C7_overall_status_and_timber_recommendations [] 0 "GreenWood Ltd" "timber" [] _ rfl).2.2.2.2
      (by decide) rfl,
   (C7_overall_status_and_timber_recommendations [] 0 "GreenWood Ltd" "timber" ["FSC"] _ rfl).2.2.1
      ⟨verify_single_cert [] 0 "GreenWood Ltd" "FSC" "timber", by decide, by decide⟩⟩

/-! ## C9 -/

/-- C9: lookup misses degrade to defined defaults.  An unmatched
company/cert-type pair yields a NOT_FOUND result among the verification
results (with empty remediation when the cert type has no guidance
entry); an unknown category yields an empty `missing_recommended` list;
an unknown company yields the no-prior-history placeholder profile with
`total_submissions` 0 and alert level LOW. -/
theorem C9_lookup_misses_degrade_to_defaults :
    (∀ (registry : List CertRecord) (today : Int)
       (company category ct : String) (claimed : List String),
      ct ∈ claimed → registryMatches registry company ct = [] →
      ∃ r ∈ (verify_certificates registry today company claimed
              category).verification_results,
        r.cert = ct ∧ r.status = "NOT_FOUND" ∧
        (CERT_GUIDANCE_KEYS.contains ct = false →
          r.remediation = ⟨false, none⟩)) ∧
    (∀ (category : String) (claimed : List String),
      CATEGORY_RECOMMENDATIONS.lookup (lowerStr category) = none →
      identify_missing_certs category claimed = []) ∧
    (∀ (st : LedgerState) (company : String),
      st.profiles.lookup company = none →
      get_seller_risk_profile st company =
        .placeholder company 0 "LOW" "No prior submission history found") := by
  refine ⟨?_, ?_, ?_⟩
  · intro registry today company category ct claimed hmem hm
    refine ⟨verify_single_cert registry today company ct category,
      List.mem_map_of_mem _ hmem, ?_⟩
    unfold verify_single_cert
    rw [hm]
    refine ⟨rfl, rfl, ?_⟩
    intro hng
    unfold guidanceFor
    rw [hng]
  · intro category claimed hlk
    unfold identify_missing_certs
    rw [hlk]
    rfl
  · intro st company hlk
    unfold get_seller_risk_profile
    rw [hlk]

/-- Witness for C9 at concrete inputs: an empty registry with one claimed
unknown cert type, an unknown category, and an empty ledger. -/
theorem C9_lookup_misses_degrade_to_defaults_witness :
    (∃ r ∈ (verify_certificates [] 0 "NoSuch Co" ["GreenSeal"]
              "timber").verification_results,
        r.cert = "GreenSeal" ∧ r.status = "NOT_FOUND" ∧
        (CERT_GUIDANCE_KEYS.contains "GreenSeal" = false →
          r.remediation = ⟨false, none⟩)) ∧
    identify_missing_certs "gadgets" ["FSC"] = [] ∧
    get_seller_risk_profile initialLedger "NoSuch Co" =
      .placeholder "NoSuch Co" 0 "LOW" "No prior submission history found" :=
  ⟨C9_lookup_misses_degrade_to_defaults.1 [] 0 "NoSuch Co" "timber" "GreenSeal"
      ["GreenSeal"] (by decide) (by decide),
   C9_lookup_misses_degrade_to_defaults.2.1 "gadgets" ["FSC"] (by decide),
   C9_lookup_misses_degrade_to_defaults.2.2 initialLedger "NoSuch Co" (by decide)⟩

/-! ## C5 -/

theorem verify_single_cert_status_cases (registry : List CertRecord) (today : Int)
    (company ct category : String) :
    (verify_single_cert registry today company ct category).status = "NOT_FOUND" ∨
    (verify_single_cert registry today company ct category).status = "EXPIRED" ∨
    (verify_single_cert registry today company ct category).status = "SCOPE_MISMATCH" ∨
    (verify_single_cert registry today company ct category).status = "VERIFIED" := by
  unfold verify_single_cert
  split
  · exact Or.inl rfl
  · split
    · exact Or.inr (Or.inl rfl)
    · split
      · exact Or.inr (Or.inr (Or.inl rfl))
      · exact Or.inr (Or.inr (Or.inr rfl))

theorem scoreCerts_fold_points :
    ∀ (certs : List CertResult),
      (∀ r ∈ certs, certStatusPenalty r.status = 0 ∨ certStatusPenalty r.status = 25 ∨
        certStatusPenalty r.status = 20 ∨ certStatusPenalty r.status = 15) →
      ∀ (acc : ℚ × List BreakdownEntry),
        (∀ e ∈ acc.2, e.points = 25 ∨ e.points = 20 ∨ e.points = 15) →
        ∀ e ∈ (certs.foldl scoreCertStep acc).2,
          e.points = 25 ∨ e.points = 20 ∨ e.points = 15 := by
  intro certs
  induction certs with
  | nil => intro _ acc hacc; exact hacc
  | cons c t ih =>
    intro hst acc hacc
    rw [List.foldl_cons]
    apply ih (fun r hr => hst r (List.mem_cons_of_mem _ hr))
    obtain ⟨sc, bd⟩ := acc
    by_cases hp : 0 < certStatusPenalty c.status
    · intro e he
      simp only [scoreCertStep, if_pos hp, List.mem_append, List.mem_singleton] at he
      rcases he with he | he
      · exact hacc e he
      · subst he
        rcases hst c (List.mem_cons_self c t) with h | h | h | h
        · omega
        all_goals simp [h]
    · intro e he
      simp only [scoreCertStep, if_neg hp] at he
      exact hacc e he

/-- C5: in the composed pipeline every per-certificate result produced by
`verify_certificates` has status among NOT_FOUND, EXPIRED, SCOPE_MISMATCH
and VERIFIED, so the penalty table's NO_CERTS_CLAIMED row (10 points) is
never drawn: every breakdown entry appended by the certificate-penalty
loop of `calculate_risk_score` (exactly the `scoreCerts` component of
its `score_breakdown`) carries 25, 20 or 15 points. -/
theorem C5_no_certs_claimed_penalty_unreachable
    (registry : List CertRecord) (today : Int) (company category : String)
    (claimed : List String) (table : List SdgTarget) (claims : List Claim)
    (red_flags : List RedFlag) (hp : Bool) (ai : AIRisk) (vr : List CertResult)
    (hvr : vr = (verify_certificates registry today company claimed
                  category).verification_results) :
    (∀ r ∈ vr, r.status = "NOT_FOUND" ∨ r.status = "EXPIRED" ∨
      r.status = "SCOPE_MISMATCH" ∨ r.status = "VERIFIED") ∧
    (∀ r ∈ vr, certStatusPenalty r.status ≠ certStatusPenalty "NO_CERTS_CLAIMED") ∧
    (∀ e ∈ (scoreCerts vr).2, e.points = 25 ∨ e.points = 20 ∨ e.points = 15) ∧
    (calculate_risk_score table claims vr red_flags hp ai).score_breakdown =
      (scoreClaims table claims).2.1 ++ (scoreCerts vr).2 ++
      (scoreMissingProof hp claims.length).2 ++ (scoreRedFlags red_flags).2 ++
      (scoreAiBoost ai).2 := by
  subst hvr
  have hstatus : ∀ r ∈ (verify_certificates registry today company claimed
      category).verification_results,
      r.status = "NOT_FOUND" ∨ r.status = "EXPIRED" ∨
      r.status = "SCOPE_MISMATCH" ∨ r.status = "VERIFIED" := by
    intro r hr
    obtain ⟨ct, _, hct⟩ := List.mem_map.mp hr
    subst hct
    exact verify_single_cert_status_cases registry today company ct category
  refine ⟨hstatus, ?_, ?_, ?_⟩
  · intro r hr
    rcases hstatus r hr with h | h | h | h <;> rw [h] <;> decide
  · unfold scoreCerts
    apply scoreCerts_fold_points _ ?_ (0, []) (by simp)
    intro r hr
    rcases hstatus r hr with h | h | h | h <;> rw [h] <;> decide
  · rw [calculate_risk_score_eq]

/-- Witness for C5: the concrete composed pipeline with one known-good,
one expired and one unknown claimed certificate. -/
theorem C5_no_certs_claimed_penalty_unreachable_witness :
    let vr := (verify_certificates
        [⟨"Acme", "FSC", 100, ["timber"], "N1", "B1"⟩,
         ⟨"Acme", "PEFC", 10, ["timber"], "N2", "B2"⟩]
        50 "Acme" ["FSC", "PEFC", "CITES"] "timber").verification_results
    (∀ r ∈ vr, r.status = "NOT_FOUND" ∨ r.status = "EXPIRED" ∨
      r.status = "SCOPE_MISMATCH" ∨ r.status = "VERIFIED") ∧
    (∀ r ∈ vr, certStatusPenalty r.status ≠ certStatusPenalty "NO_CERTS_CLAIMED") ∧
    (∀ e ∈ (scoreCerts vr).2, e.points = 25 ∨ e.points = 20 ∨ e.points = 15) ∧
    (calculate_risk_score [] [] vr [] true ⟨"low", 0, []⟩).score_breakdown =
      (scoreClaims [] []).2.1 ++ (scoreCerts vr).2 ++
      (scoreMissingProof true 0).2 ++ (scoreRedFlags []).2 ++
      (scoreAiBoost ⟨"low", 0, []⟩).2 :=
  C5_no_certs_claimed_penalty_unreachable
    [⟨"Acme", "FSC", 100, ["timber"], "N1", "B1"⟩,
     ⟨"Acme", "PEFC", 10, ["timber"], "N2", "B2"⟩]
    50 "Acme" "timber" ["FSC", "PEFC", "CITES"] [] [] [] true ⟨"low", 0, []⟩ _ rfl

/-! ## C8 -/

theorem ai_risk_chain_spec (s : ℕ) :
    ((if 50 ≤ s then "high" else if 25 ≤ s then "medium" else "low") = "high" ↔ 50 ≤ s) ∧
    ((if 50 ≤ s then "high" else if 25 ≤ s then "medium" else "low") = "medium" ↔
      25 ≤ s ∧ s < 50) ∧
    ((if 50 ≤ s then "high" else if 25 ≤ s then "medium" else "low") = "low" ↔ s < 25) := by
  by_cases h1 : 50 ≤ s <;> by_cases h2 : 25 ≤ s <;> simp [h1, h2] <;> omega

/-- The risk level reported by the AI heuristic is the threshold chain
over its own score. -/
theorem assess_risk_eq_chain (text : String) :
    (assess_ai_generated_risk text).risk =
      (if 50 ≤ (assess_ai_generated_risk text).score then "high"
       else if 25 ≤ (assess_ai_generated_risk text).score then "medium" else "low") := by
  unfold assess_ai_generated_risk
  dsimp only
  split
  · rfl
  · rfl

/-- On the empty string the keyword-extraction step never fires (every
taxonomy phrase being non-empty). -/
theorem extractStep_empty_text (acc : List Claim × List String)
    (pr : String × String) (hne : pr.2 ≠ "") :
    extractStep "" [] acc pr = acc := by
  obtain ⟨d, s⟩ := acc
  obtain ⟨t, p⟩ := pr
  have hp : p.toList ≠ [] := fun hc => hne (String.toList_inj.mp hc)
  have hsub : subList (lowerL p.toList) [] = false := by
    cases hl : p.toList with
    | nil => exact absurd hl hp
    | cons c cs => simp [subList, lowerL, hl]
  simp only [String.toList] at hsub
  unfold extractStep
  simp [hsub]

/-- C8: the AI-generated-content heuristic.  On text with no whitespace
tokens it returns risk low, score 0 and no indicators, and the whole
extractor applied to the empty string returns no claims, no red flags and
`has_proof_markers = false` (for any taxonomy without empty phrases).
On tokenised text the score is the sum of +30 for green-keyword density
above 8%, +20 for average sentence length strictly between 15 and 22,
and +25 for no numeric measurement pattern with more than 30 tokens; the
risk is high iff score ≥ 50, medium iff 25 ≤ score < 50, low otherwise. -/
theorem C8_ai_generated_risk_heuristic (text : String)
    (keywords : List (String × List String))
    (hkw : ∀ tp ∈ keywords, ∀ p ∈ tp.2, p ≠ "") :
    (splitWs text.toList = [] →
      assess_ai_generated_risk text = ⟨"low", 0, []⟩) ∧
    (extract_claims keywords "" =
      { claims := [], red_flags := [], has_proof_markers := false,
        claim_count := 0, is_ai_generated_risk := ⟨"low", 0, []⟩ }) ∧
    (splitWs text.toList ≠ [] →
      (assess_ai_generated_risk text).score =
        (if 8/100 < (((splitWs text.toList).countP
              (fun w => GREEN_VOCAB.contains (String.mk (lowerL w)))) : ℚ) /
              ((splitWs text.toList).length : ℚ) then 30 else 0) +
        (if 15 < (((splitDot text.toList).map (fun s => (splitWs s).length)).sum : ℚ) /
              (max (splitDot text.toList).length 1 : ℚ) ∧
            (((splitDot text.toList).map (fun s => (splitWs s).length)).sum : ℚ) /
              (max (splitDot text.toList).length 1 : ℚ) < 22 then 20 else 0) +
        (if !hasNumUnit text.toList ∧ 30 < (splitWs text.toList).length
          then 25 else 0)) ∧
    ((assess_ai_generated_risk text).risk = "high" ↔
      50 ≤ (assess_ai_generated_risk text).score) ∧
    ((assess_ai_generated_risk text).risk = "medium" ↔
      25 ≤ (assess_ai_generated_risk text).score ∧
      (assess_ai_generated_risk text).score < 50) ∧
    ((assess_ai_generated_risk text).risk = "low" ↔
      (assess_ai_generated_risk text).score < 25) := by
  refine ⟨?_, ?_, ?_, ?_, ?_, ?_⟩
  · intro hw
    unfold assess_ai_generated_risk
    rw [hw]
    rfl
  · have hfold : ∀ (pairs : List (String × String)), (∀ pr ∈ pairs, pr.2 ≠ "") →
        pairs.foldl (extractStep "" []) ([], []) = ([], []) := by
      intro pairs
      induction pairs with
      | nil => intro _; rfl
      | cons a t ih =>
        intro h
        rw [List.foldl_cons, extractStep_empty_text ([], []) a (h a (List.mem_cons_self a t))]
        exact ih (fun pr hpr => h pr (List.mem_cons_of_mem a hpr))
    have hpairs : ∀ pr ∈ (keywords.map (fun tp => tp.2.map (fun p => (tp.1, p)))).flatten,
        pr.2 ≠ "" := by
      intro pr hpr
      obtain ⟨l, hl, hm⟩ := List.mem_flatten.mp hpr
      obtain ⟨tp, htp, hmap⟩ := List.mem_map.mp hl
      subst hmap
      obtain ⟨p, hp, hpr2⟩ := List.mem_map.mp hm
      subst hpr2
      exact hkw tp htp p hp
    unfold extract_claims
    dsimp only
    rw [show lowerL (String.toList "") = [] from rfl, hfold _ hpairs]
    rfl
  · intro hw
    have hne : (splitWs text.toList).isEmpty = false := by
      simpa [List.isEmpty_iff] using hw
    unfold assess_ai_generated_risk
    simp only [hne, Bool.false_eq_true, if_false]
  · rw [assess_risk_eq_chain]
    exact (ai_risk_chain_spec _).1
  · rw [assess_risk_eq_chain]
    exact (ai_risk_chain_spec _).2.1
  · rw [assess_risk_eq_chain]
    exact (ai_risk_chain_spec _).2.2

/-- Witness for C8: the empty text yields the all-empty extractor result
and the low/0/no-indicator AI assessment. -/
theorem C8_ai_generated_risk_heuristic_witness :
    assess_ai_generated_risk "" = ⟨"low", 0, []⟩ ∧
    extract_claims [("absolute", ["100% eco-friendly"])] "" =
      { claims := [], red_flags := [], has_proof_markers := false,
        claim_count := 0, is_ai_generated_risk := ⟨"low", 0, []⟩ } ∧
    ((assess_ai_generated_risk "no proof of anything here").risk = "low" ↔
      (assess_ai_generated_risk "no proof of anything here").score < 25) :=
  ⟨(C8_ai_generated_risk_heuristic "" [("absolute", ["100% eco-friendly"])]
      (by decide)).1 rfl,
   (C8_ai_generated_risk_heuristic "" [("absolute", ["100% eco-friendly"])]
      (by decide)).2.1,
   (C8_ai_generated_risk_heuristic "no proof of anything here" [] (by simp)).2.2.2.2.2⟩

/-! ## C4 -/

/-- The invariant claimed for every stored seller profile: at least one
submission, `alert_level` the pure threshold function of
`(greenwashed_count, total_submissions)`, and `avg_risk_score` the
rounded mean risk. -/
def ProfileInv (p : SellerProfile) : Prop :=
  1 ≤ p.total_submissions ∧
  p.alert_level =
    (if 3/5 ≤ (p.greenwashed_count : ℚ) / (p.total_submissions : ℚ) ∨
        3 ≤ p.greenwashed_count then "HIGH"
     else if 3/10 ≤ (p.greenwashed_count : ℚ) / (p.total_submissions : ℚ) ∨
        2 ≤ p.greenwashed_count then "MEDIUM"
     else "LOW") ∧
  p.avg_risk_score = pyRound ((p.total_risk_score : ℚ) / (p.total_submissions : ℚ))

/-- With at least one submission the `max(total, 1)` guard of
`_compute_alert_level` is inert and the code computes exactly the
spec's rate rule. -/
theorem compute_alert_level_eq_rule (gw total : ℕ) (h : 1 ≤ total) :
    compute_alert_level gw total =
      (if 3/5 ≤ (gw : ℚ) / (total : ℚ) ∨ 3 ≤ gw then "HIGH"
       else if 3/10 ≤ (gw : ℚ) / (total : ℚ) ∨ 2 ≤ gw then "MEDIUM"
       else "LOW") := by
  unfold compute_alert_level
  rw [max_eq_left h]

/-- A company's first submission always completes: the freshly created
profile's phrase table is a `defaultdict`. -/
theorem update_seller_profile_first_ok (company : String) (entry : SubmissionEntry) :
    ∃ p, update_seller_profile none company entry = .ok p :=
  ⟨_, rfl⟩

theorem mem_setProfile :
    ∀ (l : List (String × SellerProfile)) (c : String) (p : SellerProfile)
      (kp : String × SellerProfile),
      kp ∈ setProfile l c p → kp = (c, p) ∨ kp ∈ l := by
  intro l
  induction l with
  | nil =>
    intro c p kp h
    simp only [setProfile, List.mem_singleton] at h
    exact Or.inl h
  | cons a t ih =>
    intro c p kp h
    obtain ⟨k, q⟩ := a
    unfold setProfile at h
    by_cases hk : k = c
    · rw [if_pos hk] at h
      rcases List.mem_cons.mp h with h | h
      · subst hk
        exact Or.inl h
      · exact Or.inr (List.mem_cons_of_mem _ h)
    · rw [if_neg hk] at h
      rcases List.mem_cons.mp h with h | h
      · exact Or.inr (h ▸ List.mem_cons_self _ _)
      · rcases ih c p kp h with h' | h'
        · exact Or.inl h'
        · exact Or.inr (List.mem_cons_of_mem _ h')

/-- C4, failing input: the claimed invariant — after every
`record_submission` call every stored profile's `alert_level` and
`avg_risk_score` agree with its current counters — is violated by the
code.  A VERIFIED first submission followed by a GREENWASHED submission
whose claim list introduces a new phrase raises `KeyError` after the
counters were incremented in place: the stored profile then has
`greenwashed_count` 1 of `total_submissions` 2 but still carries the
first call's `alert_level` LOW (the rule gives MEDIUM for these
counters) and its stale `avg_risk_score`, so `ProfileInv` fails. -/
theorem C4_stale_profile_after_keyerror :
    ∃ st1 stErr p,
      record_submission initialLedger "GreenWood Ltd" "desk" "VERIFIED" 0
        ["eco"] "t1" = .ok st1 ∧
      record_submission st1 "GreenWood Ltd" "desk2" "GREENWASHED" 80
        ["green"] "t2" = .error stErr ∧
      stErr.profiles.lookup "GreenWood Ltd" = some p ∧
      p.total_submissions = 2 ∧
      p.greenwashed_count = 1 ∧
      p.alert_level = "LOW" ∧
      ¬ ProfileInv p := by
  have hLOW : compute_alert_level 0 1 = "LOW" := by
    unfold compute_alert_level
    norm_num
  have hMED : (if 3/5 ≤ ((1:ℕ):ℚ) / ((2:ℕ):ℚ) ∨ 3 ≤ (1:ℕ) then "HIGH"
      else if 3/10 ≤ ((1:ℕ):ℚ) / ((2:ℕ):ℚ) ∨ 2 ≤ (1:ℕ) then "MEDIUM"
      else "LOW") = "MEDIUM" := by
    norm_num
  refine ⟨_, _, _, rfl, rfl, rfl, rfl, rfl, hLOW, ?_⟩
  intro hinv
  have h2 : compute_alert_level 0 1 =
      (if 3/5 ≤ ((1:ℕ):ℚ) / ((2:ℕ):ℚ) ∨ 3 ≤ (1:ℕ) then "HIGH"
       else if 3/10 ≤ ((1:ℕ):ℚ) / ((2:ℕ):ℚ) ∨ 2 ≤ (1:ℕ) then "MEDIUM"
       else "LOW") := hinv.2.1
  rw [hLOW, hMED] at h2
  exact absurd h2 (by decide)

/-! ## C6 -/

theorem findSubstr_spec (needle : List Char) :
    ∀ (hay : List Char) (i : Nat), findSubstr needle hay = some i →
      needle.isPrefixOf (hay.drop i) = true ∧
      ∀ j < i, needle.isPrefixOf (hay.drop j) = false := by
  intro hay
  induction hay with
  | nil =>
    intro i h
    unfold findSubstr at h
    split at h
    · cases h
      refine ⟨?_, fun j hj => absurd hj (by omega)⟩
      have : needle = [] := by simpa [List.isEmpty_iff] using ‹needle.isEmpty = true›
      subst this
      rfl
    · cases h
  | cons c t ih =>
    intro i h
    unfold findSubstr at h
    by_cases hp : needle.isPrefixOf (c :: t) = true
    · rw [if_pos hp] at h
      cases h
      exact ⟨hp, fun j hj => absurd hj (by omega)⟩
    · rw [if_neg hp] at h
      obtain ⟨i', hi', rfl⟩ := Option.map_eq_some'.mp h
      obtain ⟨hpre, hmin⟩ := ih i' hi'
      refine ⟨hpre, ?_⟩
      intro j hj
      cases j with
      | zero =>
        simpa using Bool.not_eq_true _ |>.mp hp
      | succ k =>
        exact hmin k (by omega)

theorem subList_findSubstr (needle : List Char) :
    ∀ hay, subList needle hay = true → ∃ i, findSubstr needle hay = some i := by
  intro hay
  induction hay with
  | nil =>
    intro h
    unfold subList at h
    exact ⟨0, by unfold findSubstr; rw [if_pos h]⟩
  | cons c t ih =>
    intro h
    unfold subList at h
    by_cases hp : needle.isPrefixOf (c :: t) = true
    · exact ⟨0, by unfold findSubstr; rw [if_pos hp]⟩
    · have ht : subList needle t = true := by
        rcases Bool.or_eq_true _ _ |>.mp h with h' | h'
        · exact absurd h' hp
        · exact h'
      obtain ⟨i, hi⟩ := ih ht
      exact ⟨i + 1, by unfold findSubstr; rw [if_neg hp, hi]; rfl⟩

/-- The positional property a detected claim carries with respect to the
source text: its phrase occurs (case-insensitively) at `position`, and at
no earlier offset. -/
def ClaimPos (text : String) (c : Claim) : Prop :=
  (lowerL c.phrase.toList).isPrefixOf ((lowerL text.toList).drop c.position) = true ∧
  ∀ j < c.position,
    (lowerL c.phrase.toList).isPrefixOf ((lowerL text.toList).drop j) = false

theorem extract_fold_pos (text : String) :
    ∀ (pairs : List (String × String)) (acc : List Claim × List String),
      (∀ c ∈ acc.1, ClaimPos text c) →
      ∀ c ∈ (pairs.foldl (extractStep text (lowerL text.toList)) acc).1,
        ClaimPos text c := by
  intro pairs
  induction pairs with
  | nil => intro acc hacc; exact hacc
  | cons pr rest ih =>
    intro acc hacc
    rw [List.foldl_cons]
    apply ih
    obtain ⟨d, s⟩ := acc
    obtain ⟨ty, p⟩ := pr
    unfold extractStep
    dsimp only
    by_cases hcond : (subList (lowerL p.toList) (lowerL text.toList) && !s.contains p) = true
    · rw [if_pos hcond]
      intro c hc
      rcases List.mem_append.mp hc with hc | hc
      · exact hacc c hc
      · rw [List.mem_singleton] at hc
        subst hc
        have hsub : subList (lowerL p.toList) (lowerL text.toList) = true :=
          (Bool.and_eq_true _ _ |>.mp hcond).1
        obtain ⟨i, hi⟩ := subList_findSubstr _ _ hsub
        obtain ⟨hpre, hmin⟩ := findSubstr_spec _ _ i hi
        have hgetd : (findSubstr (lowerL p.toList) (lowerL text.toList)).getD 0 = i := by
          rw [hi]
          rfl
        unfold ClaimPos
        dsimp only
        rw [hgetd]
        exact ⟨hpre, hmin⟩
    · rw [if_neg hcond]
      exact hacc

/-- C6: every claim returned by the extractor carries a `position` such
that the slice `T[position : position + len(phrase)]` of the source text
equals the claim's phrase case-insensitively, and no strictly earlier
offset has that property (first-occurrence offset). -/
theorem C6_claim_positions (keywords : List (String × List String)) (text : String) :
    ∀ c ∈ (extract_claims keywords text).claims,
      lowerL ((text.toList.drop c.position).take c.phrase.length) =
        lowerL c.phrase.toList ∧
      ∀ j < c.position,
        lowerL ((text.toList.drop j).take c.phrase.length) ≠
          lowerL c.phrase.toList := by
  intro c hc
  have hclaims : (extract_claims keywords text).claims =
      (((keywords.map (fun tp => tp.2.map (fun p => (tp.1, p)))).flatten).foldl
        (extractStep text (lowerL text.toList)) ([], [])).1 := rfl
  rw [hclaims] at hc
  obtain ⟨hpre, hmin⟩ := extract_fold_pos text _ ([], []) (by simp) c hc
  constructor
  · have h1 : lowerL c.phrase.toList <+: (lowerL text.toList).drop c.position :=
      List.isPrefixOf_iff_prefix.mp hpre
    have h2 : lowerL c.phrase.toList =
        ((lowerL text.toList).drop c.position).take (lowerL c.phrase.toList).length :=
      List.prefix_iff_eq_take.mp h1
    simp only [lowerL] at h2 ⊢
    rw [List.map_take, List.map_drop]
    rw [List.length_map] at h2
    exact h2.symm
  · intro j hj heq
    have htrue : (lowerL c.phrase.toList).isPrefixOf ((lowerL text.toList).drop j) = true := by
      apply List.isPrefixOf_iff_prefix.mpr
      apply List.prefix_iff_eq_take.mpr
      simp only [lowerL] at heq ⊢
      rw [List.length_map, ← List.map_drop, ← List.map_take]
      exact heq.symm
    rw [hmin j hj] at htrue
    exact Bool.false_ne_true htrue

/-- Witness for C6 at a concrete taxonomy and text: the claim "100% eco"
is found at offset 4 of "Eco 100% eco", matching case-insensitively, and
at no earlier offset. -/
theorem C6_claim_positions_witness :
    lowerL ((("Eco 100% eco").toList.drop 4).take ("100% eco").length) =
      lowerL ("100% eco").toList ∧
    ∀ j < 4,
      lowerL ((("Eco 100% eco").toList.drop j).take ("100% eco").length) ≠
        lowerL ("100% eco").toList :=
  C6_claim_positions [("absolute", ["100% eco"])] "Eco 100% eco"
    ⟨"100% eco", "absolute",
      pyRound2 (ratMin (claimBaseConfidence "absolute" + 5/100) (99/100)), 4,
      extract_context "Eco 100% eco" 4 ("100% eco").length⟩
    (List.mem_singleton.mpr rfl)

/-! ## C1 -/

/-- Unfolding of association-list lookup at a cons cell. -/
theorem lookup_cons {β : Type} (p k : String) (v : β) (t : List (String × β)) :
    List.lookup p ((k, v) :: t) = if p = k then some v else List.lookup p t := by
  by_cases h : p = k
  · simp [List.lookup, h]
  · have hb : (p == k) = false := beq_eq_false_iff_ne.mpr h
    simp [List.lookup, hb, h]

/-- The occurrence counter stored for a phrase (0 when absent). -/
def phraseCount (m : List (String × ℕ)) (p : String) : ℕ := (m.lookup p).getD 0

theorem phraseCount_cons (p k : String) (n : ℕ) (t : List (String × ℕ)) :
    phraseCount ((k, n) :: t) p = if p = k then n else phraseCount t p := by
  unfold phraseCount
  rw [lookup_cons]
  by_cases h : p = k <;> simp [h]

theorem bumpPhrase_count (q p : String) :
    ∀ m, phraseCount (bumpPhrase m q) p =
      phraseCount m p + (if q = p then 1 else 0) := by
  intro m
  induction m with
  | nil =>
    unfold bumpPhrase
    rw [phraseCount_cons]
    by_cases h : p = q
    · subst h
      simp [phraseCount, List.lookup]
    · have h' : ¬ q = p := fun hh => h hh.symm
      simp [phraseCount, List.lookup, h, h']
  | cons kn t ih =>
    obtain ⟨k, n⟩ := kn
    unfold bumpPhrase
    by_cases hk : k = q
    · rw [if_pos hk]
      rw [phraseCount_cons, phraseCount_cons]
      by_cases hp : p = k
      · have hqp : q = p := by rw [← hk, hp]
        simp [hp, hqp]
      · have hqp : ¬ q = p := fun hh => hp (by rw [← hh, hk])
        simp [hp, hqp]
    · rw [if_neg hk]
      rw [phraseCount_cons, phraseCount_cons]
      by_cases hp : p = k
      · have hqk : ¬ q = k := fun hh => hk hh.symm
        simp [hp, hqk]
      · simp only [if_neg hp]
        exact ih

theorem foldl_bumpPhrase_count (p : String) :
    ∀ (l : List String) (m : List (String × ℕ)),
      phraseCount (l.foldl bumpPhrase m) p = phraseCount m p + l.count p := by
  intro l
  induction l with
  | nil => intro m; simp
  | cons a t ih =>
    intro m
    rw [List.foldl_cons, ih, bumpPhrase_count a p m, List.count_cons]
    by_cases h : a = p
    · simp [h]
      omega
    · have : ¬ (a == p) = true := by simpa using h
      simp [h, this]

theorem lookup_setProfile_self :
    ∀ (l : List (String × SellerProfile)) (c : String) (p : SellerProfile),
      (setProfile l c p).lookup c = some p := by
  intro l
  induction l with
  | nil => intro c p; simp [setProfile, List.lookup]
  | cons kq t ih =>
    intro c p
    obtain ⟨k, q⟩ := kq
    unfold setProfile
    by_cases hk : k = c
    · rw [if_pos hk]
      subst hk
      rw [lookup_cons, if_pos rfl]
    · rw [if_neg hk]
      rw [lookup_cons, if_neg (fun hh => hk hh.symm)]
      exact ih c p

theorem lookup_mem {β : Type} :
    ∀ (l : List (String × β)) (c : String) (p : β),
      l.lookup c = some p → (c, p) ∈ l := by
  intro l
  induction l with
  | nil => intro c p h; cases h
  | cons kq t ih =>
    intro c p h
    obtain ⟨k, q⟩ := kq
    rw [lookup_cons] at h
    by_cases hk : c = k
    · rw [if_pos hk] at h
      cases h
      subst hk
      exact List.mem_cons_self _ _
    · rw [if_neg hk] at h
      exact List.mem_cons_of_mem _ (ih c p h)

theorem mem_stableInsert {α : Type} (lt : α → α → Bool) (a x : α) :
    ∀ l, x ∈ stableInsert lt a l ↔ x = a ∨ x ∈ l := by
  intro l
  induction l with
  | nil => simp [stableInsert]
  | cons b t ih =>
    unfold stableInsert
    by_cases hb : lt b a = true
    · rw [if_pos hb]
      simp
    · rw [if_neg hb]
      rw [List.mem_cons, ih, List.mem_cons]
      tauto

theorem mem_stableSortDesc {α : Type} (lt : α → α → Bool) (x : α) :
    ∀ (l : List α) (acc : List α),
      (x ∈ l.foldl (fun acc a => stableInsert lt a acc) acc ↔ x ∈ acc ∨ x ∈ l) := by
  intro l
  induction l with
  | nil => intro acc; simp
  | cons a t ih =>
    intro acc
    rw [List.foldl_cons, ih, mem_stableInsert, List.mem_cons]
    tauto

theorem mem_get_early_alerts (st : LedgerState) (c : String) (p : SellerProfile)
    (hmem : (c, p) ∈ st.profiles) (hlvl : p.alert_level = "HIGH") :
    profileAlert c p ∈ get_early_alerts st := by
  unfold get_early_alerts stableSortDesc
  rw [mem_stableSortDesc]
  right
  exact List.mem_map.mpr ⟨(c, p),
    List.mem_filter.mpr ⟨hmem, by simp [hlvl]⟩, rfl⟩

/-- C1, failing input: the claim says every `record_submission` call
completes and, for every claim phrase in the submitted list, increments
that phrase's occurrence counter, a phrase first seen in a later
submission starting at 1.  On the code, the second submission for a
company whose claim list introduces a new phrase raises `KeyError`
(`predictive_engine.py` line 59: the `defaultdict` was converted to a
plain dict at line 64 of the first call), so the call does not complete
and the new phrase gets no counter — while the partially applied update
(counters already incremented, prior phrases kept) is left stored. -/
theorem C1_second_submission_new_phrase_raises :
    ∃ st1 stErr p,
      record_submission initialLedger "GreenWood Ltd" "desk" "GREENWASHED" 80
        ["eco"] "t1" = .ok st1 ∧
      record_submission st1 "GreenWood Ltd" "desk2" "GREENWASHED" 70
        ["green"] "t2" = .error stErr ∧
      stErr.profiles.lookup "GreenWood Ltd" = some p ∧
      phraseCount p.recurring_phrases "green" = 0 ∧
      phraseCount p.recurring_phrases "eco" = 1 ∧
      p.total_submissions = 2 ∧
      p.greenwashed_count = 2 :=
  ⟨_, _, _, rfl, rfl, rfl, rfl, rfl, rfl, rfl⟩
